import Mathlib

/-!
Session bridge of `src/index.js`.

A shallow embedding of the per-call bridge registered on the `/media-stream`
route: the five closure variables of the route handler, the two `message`
listeners, the `close` listener of the telephony socket and the helper
closures `handleSpeechStartedEvent`, `sendMark`, `initializeSession` and
`sendInitialConversationItem`.

Conventions of the embedding.

* A handler is a function from the closure variables (and the message it
  receives) to the new closure variables and the list of calls it makes on the
  two sockets, in program order.
* `JSON.parse` is not modelled character by character: a received message is
  given by what the handler reads from the parsed value (the fields it
  accesses), or is `unparsable` when `JSON.parse` throws.
* Numbers are integers (timestamps are millisecond counts); strings are
  `String`.
* A `send` call is recorded with its argument, JSON text or an object.  The two
  sockets are `ws` sockets: `send` takes text, and a call given a plain object
  throws a `TypeError`.
* An `error` event of a socket that has no `error` listener is thrown as an
  exception that nothing catches, which ends the process.
* `console.log` and `console.error` calls are left out.
-/

namespace TwilioBridge

/-! ## JavaScript values -/

/-- The content of a JavaScript variable or of a field read from a parsed JSON
object: `undefined` (also the result of reading a field that is absent),
`null`, or a proper value. -/
inductive Js (α : Type) where
  | undefined : Js α
  | null : Js α
  | val (a : α) : Js α
deriving DecidableEq, Repr

/-- The test `x != null` (loose inequality: both `null` and `undefined` are
equal to `null`). -/
def Js.neqNull {α : Type} : Js α → Bool
  | .val _ => true
  | _ => false

/-- Truthiness of a value that is `undefined`, `null` or a string: only a
non-empty string is truthy. -/
def truthyStr : Js String → Bool
  | .val s => decide (s ≠ "")
  | _ => false

/-- Truthiness of a value that is `undefined`, `null` or a number: only a
non-zero number is truthy. -/
def truthyNum : Js Int → Bool
  | .val n => decide (n ≠ 0)
  | _ => false

/-- A JavaScript number as produced by arithmetic: an integer or `NaN`. -/
inductive JsNumber where
  | num (n : Int) : JsNumber
  | nan : JsNumber
deriving DecidableEq, Repr

/-- The abstract operation `ToNumber` on `undefined`, `null` and numbers. -/
def toNumber : Js Int → JsNumber
  | .undefined => .nan
  | .null => .num 0
  | .val n => .num n

/-- The operator `-` on numbers. -/
def JsNumber.sub : JsNumber → JsNumber → JsNumber
  | .num a, .num b => .num (a - b)
  | _, _ => .nan

/-- The expression `a - b` on two variables holding `undefined`, `null` or a
number. -/
def jsMinus (a b : Js Int) : JsNumber :=
  (toNumber a).sub (toNumber b)

/-! ## Messages received from the two sockets -/

/-- The object `data.media` of a telephony message, by the two fields the
handler reads. -/
structure MediaFrame where
  timestamp : Js Int
  payload : Js String
deriving DecidableEq, Repr

/-- The object `data.start` of a telephony message, by the field the handler
reads. -/
structure StartFrame where
  streamSid : Js String
deriving DecidableEq, Repr

/-- The result `data` of `JSON.parse` on a telephony message, by what the
handler reads of it: `data.event`, and the objects `data.media` and
`data.start` (`none` when the field is absent, so that reading a field of it
throws a `TypeError`). -/
structure TwilioData where
  event : Js String
  media : Option MediaFrame
  start : Option StartFrame
deriving DecidableEq, Repr

/-- A message received on the telephony socket: text on which `JSON.parse`
throws, or a parsed value. -/
inductive TwilioMessage where
  | unparsable : TwilioMessage
  | data (d : TwilioData) : TwilioMessage
deriving DecidableEq, Repr

/-- The result `response` of `JSON.parse` on a speech-model message, by the
three fields the handler reads. -/
structure OpenAiResponse where
  type : Js String
  delta : Js String
  item_id : Js String
deriving DecidableEq, Repr

/-- A message received on the speech-model socket. -/
inductive OpenAiMessage where
  | unparsable : OpenAiMessage
  | data (r : OpenAiResponse) : OpenAiMessage
deriving DecidableEq, Repr

/-! ## Calls made on the two sockets -/

/-- The event objects the bridge builds for the telephony socket. -/
inductive TwilioEvent where
  | media (streamSid : Js String) (payload : Js String) : TwilioEvent
  | mark (streamSid : Js String) (name : String) : TwilioEvent
  | clear (streamSid : Js String) : TwilioEvent
deriving DecidableEq, Repr

/-- The content of the `session` object of a `session.update` message.
The temperature `0.8` is kept in tenths. -/
structure SessionConfig where
  turn_detection : String
  input_audio_format : String
  output_audio_format : String
  voice : String
  instructions : String
  modalities : List String
  temperatureTenths : Nat
deriving DecidableEq, Repr

/-- One entry of the `content` array of a conversation item. -/
structure ContentPart where
  type : String
  text : String
deriving DecidableEq, Repr

/-- The event objects the bridge builds for the speech-model socket. -/
inductive OpenAiEvent where
  | sessionUpdate (session : SessionConfig) : OpenAiEvent
  | conversationItemCreate (itemType role : String) (content : List ContentPart) : OpenAiEvent
  | responseCreate : OpenAiEvent
  | truncate (item_id : Js String) (content_index : Nat) (audio_end_ms : JsNumber) : OpenAiEvent
  | inputAudioBufferAppend (audio : Js String) : OpenAiEvent
deriving DecidableEq, Repr

/-- The argument of a `send` call: the text `JSON.stringify(e)` of an event
object `e`, or the object `e` itself. -/
inductive SendArg (α : Type) where
  | json (e : α) : SendArg α
  | object (e : α) : SendArg α
deriving DecidableEq, Repr

/-- Whether a `send` call with this argument throws.  Both sockets are `ws`
sockets, whose `send` takes text (or binary data): given a plain object it
cannot turn the data into a buffer and throws a `TypeError`. -/
def SendArg.throws {α : Type} : SendArg α → Bool
  | .json _ => false
  | .object _ => true

/-- A call on one of the two sockets or on the timer, made whether or not it
returns: `connection.send(..)`, `openAiWs.send(..)`, `openAiWs.close()`,
`connection.close()` and `setTimeout(initializeSession, ms)`; and an exception
that no handler catches, which ends the process. -/
inductive Effect where
  | connectionSend (arg : SendArg TwilioEvent) : Effect
  | openAiWsSend (arg : SendArg OpenAiEvent) : Effect
  | openAiWsClose : Effect
  | connectionClose : Effect
  | setTimeoutInitializeSession (ms : Nat) : Effect
  | uncaughtException : Effect
deriving DecidableEq, Repr

/-! ## Session state -/

/-- The five `let` variables of the route handler. -/
structure SessionState where
  streamSid : Js String
  latestMediaTimestamp : Js Int
  lastAssistantItem : Js String
  markQueue : List String
  responseStartTimestampTwilio : Js Int
deriving DecidableEq, Repr

/-- The values the variables are declared with. -/
def initialState : SessionState where
  streamSid := .null
  latestMediaTimestamp := .val 0
  lastAssistantItem := .null
  markQueue := []
  responseStartTimestampTwilio := .null

/-- The value of `openAiWs.readyState`. -/
inductive ReadyState where
  | CONNECTING : ReadyState
  | OPEN : ReadyState
  | CLOSING : ReadyState
  | CLOSED : ReadyState
deriving DecidableEq, Repr

/-! ## Static configuration -/

/-- The constant `SYSTEM_MESSAGE`, line by line (the lines are joined by line
feeds; the text starts and ends with one). -/
def SYSTEM_MESSAGE : String :=
  String.intercalate "\n" [
    "",
    "## Identity",
    "You are a primary customer support consultant for a D2C brand specializing in clothing store. ",
    "You handle all incoming queries: order tracking, returns, inquiry, refunds, exchanges, product info, payment questions, and general assistance.",
    "",
    "## Language Handling",
    "- Automatically detect and reply in the customer’s language (Hindi or English).  ",
    "- If Hindi: always use **polite, professional Hindi** (e.g., “aap / hum” instead of “tu / mujhe / muje”).  ",
    "- If English: use warm and professional tone.  ",
    "- Do not copy customer spelling mistakes or shorthand — always respond with correct, natural phrasing.  ",
    "- Never mirror slang directly; keep replies human, empathetic, and courteous.",
    "",
    "## Knowledge Scope",
    "- You only know about clothing store, orders, returns, inquiry, refunds, exchanges, and payments related to this store. ",
    "- If the user asks about unrelated topics (e.g., weather, politics, other brands), politely decline and redirect:  ",
    "  - Example: \"I may not be the best source for that, but I can definitely help you with your order or product-related questions.\"",
    "",
    "## Demeanor",
    "Patient, professional, and empathetic.",
    "",
    "## Style & Tone",
    "- Speak warmly, like a real human consultant.  ",
    "- Acknowledge frustration or issue briefly before moving into process.  ",
    "- Keep replies short, natural, and conversational.  ",
    "- Never sound robotic or scripted.  ",
    "- Use occasional filler words (e.g., “hmm,” “uh”) to sound human.  ",
    "- Calm, friendly, and supportive tone.",
    "- If the customer expresses a complaint (e.g., poor quality, wrong item), always start with a brief, genuine empathy line like:",
    "  “I’m really sorry that wasn’t up to the mark. We’ll get this sorted out.”  ",
    "",
    "## Formality",
    "Moderately professional—friendly yet courteous.",
    "",
    "## Error Handling",
    "- If a tool fails or returns incomplete data, apologize naturally:  ",
    "  \"Sorry, something went wrong while checking that. Let me try again.\"  ",
    "- If the issue cannot be resolved after retry, escalate to a human agent.",
    "",
    "## General Info",
    "Today's date and time is 06:22 PM IST on Sunday, August 17, 2025.",
    ""
  ]

/-- The constant `VOICE`. -/
def VOICE : String := "alloy"

/-! ## The closures of the route handler -/

/-- The closure `handleSpeechStartedEvent`. -/
def handleSpeechStartedEvent (s : SessionState) : SessionState × List Effect :=
  if s.markQueue.length > 0 && s.responseStartTimestampTwilio.neqNull then
    let elapsedTime := jsMinus s.latestMediaTimestamp s.responseStartTimestampTwilio
    let truncateSend : List Effect :=
      if truthyStr s.lastAssistantItem then
        [Effect.openAiWsSend (.json (.truncate s.lastAssistantItem 0 elapsedTime))]
      else []
    ({ s with markQueue := [], lastAssistantItem := .null, responseStartTimestampTwilio := .null },
      truncateSend ++ [Effect.connectionSend (.json (.clear s.streamSid))])
  else (s, [])

/-- The closure `sendMark`. -/
def sendMark (s : SessionState) : SessionState × List Effect :=
  if truthyStr s.streamSid then
    ({ s with markQueue := s.markQueue ++ ["responsePart"] },
      [Effect.connectionSend (.json (.mark s.streamSid "responsePart"))])
  else (s, [])

/-- The body of the first `if` of the speech-model `message` listener.  Its
first statement calls `connection.send` with the event object itself; the call
throws, the `catch` of the listener swallows the error, and the rest of the body
(the start timestamp, the item id, `sendMark`) does not run. -/
def onAudioDelta (s : SessionState) (r : OpenAiResponse) : SessionState × List Effect :=
  let mediaArg : SendArg TwilioEvent := .object (.media s.streamSid r.delta)
  if mediaArg.throws then (s, [Effect.connectionSend mediaArg])
  else
    let s1 :=
      if !truthyNum s.responseStartTimestampTwilio then
        { s with responseStartTimestampTwilio := s.latestMediaTimestamp }
      else s
    let s2 := if truthyStr r.item_id then { s1 with lastAssistantItem := r.item_id } else s1
    let marked := sendMark s2
    (marked.1, Effect.connectionSend mediaArg :: marked.2)

/-- The listener `openAiWs.on("message", ..)`. -/
def openAiWsOnMessage (s : SessionState) : OpenAiMessage → SessionState × List Effect
  | .unparsable => (s, [])
  | .data r =>
    let first :=
      if r.type = .val "response.audio.delta" && truthyStr r.delta then onAudioDelta s r
      else (s, [])
    let second :=
      if r.type = .val "input_audio_buffer.speech_started" then handleSpeechStartedEvent first.1
      else (first.1, [])
    (second.1, first.2 ++ second.2)

/-- The listener `connection.on("message", ..)`; `readyState` is the value of
`openAiWs.readyState` when it runs. -/
def connectionOnMessage (readyState : ReadyState) (s : SessionState) :
    TwilioMessage → SessionState × List Effect
  | .unparsable => (s, [])
  | .data d =>
    if d.event = .val "media" then
      match d.media with
      | none => (s, [])
      | some m =>
        ({ s with latestMediaTimestamp := m.timestamp },
          if readyState = .OPEN then
            [Effect.openAiWsSend (.json (.inputAudioBufferAppend m.payload))]
          else [])
    else if d.event = .val "start" then
      match d.start with
      | none => (s, [])
      | some st =>
        ({ s with streamSid := st.streamSid, responseStartTimestampTwilio := .null,
                  latestMediaTimestamp := .val 0 }, [])
    else if d.event = .val "mark" then
      (if s.markQueue.length > 0 then { s with markQueue := s.markQueue.tail } else s, [])
    else (s, [])

/-- The listener `connection.on("close", ..)`. -/
def connectionOnClose (readyState : ReadyState) : List Effect :=
  if readyState = .OPEN then [Effect.openAiWsClose] else []

/-- The closure `sendInitialConversationItem`. -/
def sendInitialConversationItem : List Effect :=
  [Effect.openAiWsSend (.json (.conversationItemCreate "message" "user"
      [{ type := "input_text", text := "Hello! How can I assist you today?" }])),
   Effect.openAiWsSend (.json .responseCreate)]

/-- The closure `initializeSession`. -/
def initializeSession : List Effect :=
  Effect.openAiWsSend (.json (.sessionUpdate
      { turn_detection := "server_vad"
        input_audio_format := "g711_ulaw"
        output_audio_format := "g711_ulaw"
        voice := VOICE
        instructions := SYSTEM_MESSAGE
        modalities := ["text", "audio"]
        temperatureTenths := 8 }))
    :: sendInitialConversationItem

/-- The listener `openAiWs.on("open", ..)`. -/
def openAiWsOnOpen : List Effect :=
  [Effect.setTimeoutInitializeSession 100]

/-! ## The bridge as a transition system -/

/-- One call: the closure variables and the state of the speech-model
socket. -/
structure Bridge where
  session : SessionState
  readyState : ReadyState
deriving DecidableEq, Repr

/-- The bridge when the route handler returns: the variables hold their
declared values and the speech-model socket is connecting. -/
def initialBridge : Bridge where
  session := initialState
  readyState := .CONNECTING

/-- What can happen to the bridge: an event of one of the two sockets, or the
timer set by the `open` listener running out. -/
inductive Inbound where
  | connectionMessage (m : TwilioMessage) : Inbound
  | connectionClose : Inbound
  | openAiWsOpen : Inbound
  | openAiWsMessage (m : OpenAiMessage) : Inbound
  | openAiWsClose : Inbound
  | openAiWsError : Inbound
  | timerFired : Inbound
deriving DecidableEq, Repr

/-- One step of the bridge: the listener registered for the event runs.  The
source registers listeners for `message` and `close` on `connection` and for
`open` and `message` on `openAiWs`; it registers none for `close` or `error`
on `openAiWs`.  A `close` event without a listener passes unnoticed; an `error`
event without a listener is thrown as an exception that nothing catches.  The
socket's own `readyState` follows the event (`OPEN` on `open`, `CLOSED` on
`close`, `CLOSING` once `close()` was called on an open socket). -/
def step (b : Bridge) : Inbound → Bridge × List Effect
  | .connectionMessage m =>
    let r := connectionOnMessage b.readyState b.session m
    ({ b with session := r.1 }, r.2)
  | .connectionClose =>
    ({ b with readyState := if b.readyState = .OPEN then .CLOSING else b.readyState },
      connectionOnClose b.readyState)
  | .openAiWsOpen => ({ b with readyState := .OPEN }, openAiWsOnOpen)
  | .openAiWsMessage m =>
    let r := openAiWsOnMessage b.session m
    ({ b with session := r.1 }, r.2)
  | .openAiWsClose => ({ b with readyState := .CLOSED }, [])
  | .openAiWsError => (b, [Effect.uncaughtException])
  | .timerFired => (b, initializeSession)

/-- The bridge run over a sequence of events, with all calls made, in order.
The run ends with the step that throws an uncaught exception: the process is
gone and the events after it are not handled. -/
def run (b : Bridge) : List Inbound → Bridge × List Effect
  | [] => (b, [])
  | e :: es =>
    let r := step b e
    if Effect.uncaughtException ∈ r.2 then r
    else
      let rest := run r.1 es
      (rest.1, r.2 ++ rest.2)

/-! ## The events of the two adapters -/

/-- The telephony message `{event: "start", start: {streamSid}}`. -/
def startMessage (streamSid : String) : TwilioMessage :=
  .data { event := .val "start", media := none, start := some { streamSid := .val streamSid } }

/-- The telephony message `{event: "media", media: {timestamp, payload}}`. -/
def mediaMessage (timestamp : Int) (payload : String) : TwilioMessage :=
  .data { event := .val "media", media := some { timestamp := .val timestamp, payload := .val payload },
          start := none }

/-- The telephony message `{event: "mark"}`. -/
def markMessage : TwilioMessage :=
  .data { event := .val "mark", media := none, start := none }

/-- A telephony message with another value of `event` and nothing else. -/
def otherTwilioMessage (event : String) : TwilioMessage :=
  .data { event := .val event, media := none, start := none }

/-- The speech-model message `{type: "response.audio.delta", item_id, delta}`. -/
def audioDeltaMessage (item_id delta : String) : OpenAiMessage :=
  .data { type := .val "response.audio.delta", delta := .val delta, item_id := .val item_id }

/-- The speech-model message `{type: "input_audio_buffer.speech_started"}`. -/
def speechStartedMessage : OpenAiMessage :=
  .data { type := .val "input_audio_buffer.speech_started", delta := .undefined,
          item_id := .undefined }

/-- A speech-model message with another value of `type` and nothing else. -/
def otherOpenAiMessage (type : String) : OpenAiMessage :=
  .data { type := .val type, delta := .undefined, item_id := .undefined }

/-- The inbound events of the two adapters, by kind. -/
inductive SpecEvent where
  | start (streamId : String) : SpecEvent
  | media (timestampMs : Int) (payload : String) : SpecEvent
  | mark : SpecEvent
  | telephonyOther (event : String) : SpecEvent
  | audioDelta (itemId payload : String) : SpecEvent
  | speechStarted : SpecEvent
  | speechOther (type : String) : SpecEvent
deriving DecidableEq, Repr

/-- The message that carries an event. -/
def SpecEvent.toInbound : SpecEvent → Inbound
  | .start sid => .connectionMessage (startMessage sid)
  | .media t p => .connectionMessage (mediaMessage t p)
  | .mark => .connectionMessage markMessage
  | .telephonyOther ev => .connectionMessage (otherTwilioMessage ev)
  | .audioDelta i p => .openAiWsMessage (audioDeltaMessage i p)
  | .speechStarted => .openAiWsMessage speechStartedMessage
  | .speechOther ty => .openAiWsMessage (otherOpenAiMessage ty)

/-- The bridge run over a sequence of adapter events. -/
def runEvents (b : Bridge) (es : List SpecEvent) : Bridge × List Effect :=
  run b (es.map SpecEvent.toInbound)

/-- A state in the middle of an assistant utterance, as the claims describe it:
a stream id, an item id, one mark outstanding, the utterance started at `0` and
the latest caller frame at `400`. -/
def midUtterance : SessionState where
  streamSid := .val "A"
  latestMediaTimestamp := .val 400
  lastAssistantItem := .val "I1"
  markQueue := ["responsePart"]
  responseStartTimestampTwilio := .val 0

/-- The variables once the stream `A` has started: the state after `start{A}`
from the initial variables. -/
def afterStart : SessionState where
  streamSid := .val "A"
  latestMediaTimestamp := .val 0
  lastAssistantItem := .null
  markQueue := []
  responseStartTimestampTwilio := .null

/-- The content of `lastAssistantItem` is `null` or a truthy value (a non-empty
item id). -/
def ItemNullOrTruthy (s : SessionState) : Prop :=
  s.lastAssistantItem = .null ∨ truthyStr s.lastAssistantItem = true

/-- Every `conversation.item.truncate` message among the calls carries a number
that is not negative as `audio_end_ms`. -/
def TruncatesNonNegative (effects : List Effect) : Prop :=
  ∀ (item : Js String) (index : Nat) (audioEnd : JsNumber),
    Effect.openAiWsSend (.json (.truncate item index audioEnd)) ∈ effects →
      ∃ n : Int, audioEnd = .num n ∧ 0 ≤ n

/-- The `media` events that carry a sequence of frames, each a timestamp and a
payload. -/
def mediaRun (frames : List (Int × String)) : List SpecEvent :=
  frames.map fun f => SpecEvent.media f.1 f.2

/-- The event object behind the argument of a `send` call. -/
def SendArg.event {α : Type} : SendArg α → α
  | .json e => e
  | .object e => e

/-- The argument of a `send` call is JSON text. -/
def SendArg.isJson {α : Type} : SendArg α → Bool
  | .json _ => true
  | .object _ => false

/-- The `streamSid` field of a telephony event object. -/
def TwilioEvent.streamSidOf : TwilioEvent → Js String
  | .media sid _ => sid
  | .mark sid _ => sid
  | .clear sid => sid

/-- The telephony event object is a `media` event. -/
def TwilioEvent.isMedia : TwilioEvent → Bool
  | .media _ _ => true
  | _ => false

/-- Every `connection.send` call of the list is given JSON text. -/
def TelephonySendsSerialized (effects : List Effect) : Prop :=
  ∀ arg : SendArg TwilioEvent, Effect.connectionSend arg ∈ effects → arg.isJson = true

/-- Every `mark` and `clear` event sent on the telephony socket carries a
`streamSid` that is set. -/
def MarksAndClearsCarryStreamSid (effects : List Effect) : Prop :=
  ∀ arg : SendArg TwilioEvent, Effect.connectionSend arg ∈ effects →
    arg.event.isMedia = false → arg.event.streamSidOf.neqNull = true

/-- The telephony message `{event: "media", media: {}}`: a `media` event whose
frame has neither `timestamp` nor `payload`. -/
def mediaMessageWithoutFields : TwilioMessage :=
  .data { event := .val "media", media := some { timestamp := .undefined, payload := .undefined },
          start := none }

/-- The telephony message `{event: "start", start: {}}`: a `start` event whose
frame has no `streamSid`. -/
def startMessageWithoutStreamSid : TwilioMessage :=
  .data { event := .val "start", media := none, start := some { streamSid := .undefined } }

/-- A telephony message that cannot be parsed, or whose `event` is none of
`media`, `start`, `mark`, or a `media` message without its `media` object, or a
`start` message without its `start` object. -/
def ignoredTwilioMessage : TwilioMessage → Bool
  | .unparsable => true
  | .data d =>
    (decide (d.event ≠ .val "media") && decide (d.event ≠ .val "start") &&
        decide (d.event ≠ .val "mark")) ||
      (decide (d.event = .val "media") && d.media.isNone) ||
      (decide (d.event = .val "start") && d.start.isNone)

/-- A speech-model message that cannot be parsed, or whose `type` is neither
`response.audio.delta` nor `input_audio_buffer.speech_started`. -/
def ignoredOpenAiMessage : OpenAiMessage → Bool
  | .unparsable => true
  | .data r =>
    decide (r.type ≠ .val "response.audio.delta") &&
      decide (r.type ≠ .val "input_audio_buffer.speech_started")

/-- A malformed or unrecognized message on one of the two sockets. -/
def ignoredInbound : Inbound → Bool
  | .connectionMessage m => ignoredTwilioMessage m
  | .openAiWsMessage m => ignoredOpenAiMessage m
  | _ => false

/-- The guard of `handleSpeechStartedEvent`: an utterance is being played. -/
def interruptionGuard (s : SessionState) : Bool :=
  decide (s.markQueue.length > 0) && s.responseStartTimestampTwilio.neqNull

/-- The events that reach the telephony socket: those of the `connection.send`
calls that return. -/
def deliveredToTelephony (effects : List Effect) : List TwilioEvent :=
  effects.filterMap fun
    | .connectionSend arg => if arg.throws then none else some arg.event
    | _ => none

/-- A `media` event is among the events that reach the telephony socket. -/
def forwardsAudio (effects : List Effect) : Bool :=
  (deliveredToTelephony effects).any TwilioEvent.isMedia

/-- The event is a telephony `start` message with its `start` object. -/
def Inbound.isStart : Inbound → Bool
  | .connectionMessage (.data d) => decide (d.event = .val "start") && d.start.isSome
  | _ => false

/-- The event is a speech-model `speech_started` message. -/
def Inbound.isSpeechStarted : Inbound → Bool
  | .openAiWsMessage (.data r) => decide (r.type = .val "input_audio_buffer.speech_started")
  | _ => false

/-- Whether assistant audio has been forwarded to telephony since the most
recent `start` event or interruption, after one more event `e` handled by the
bridge `b`, given whether it had been before: a `start` event and an
interruption (a `speech_started` message handled while the guard holds) say no,
an event that makes a `media` event reach the telephony socket says yes, any
other event changes nothing. -/
def forwardedAfter (b : Bridge) (before : Bool) (e : Inbound) : Bool :=
  if e.isStart || (e.isSpeechStarted && interruptionGuard b.session) then false
  else if forwardsAudio (step b e).2 then true
  else before

/-- Whether assistant audio has been forwarded to telephony since the most
recent `start` event or interruption, at the end of the run of `es` from `b`. -/
def audioForwardedSinceReset (b : Bridge) (before : Bool) : List Inbound → Bool
  | [] => before
  | e :: es =>
    if Effect.uncaughtException ∈ (step b e).2 then forwardedAfter b before e
    else audioForwardedSinceReset (step b e).1 (forwardedAfter b before e) es

/-- No utterance is tracked: no item id, no outstanding mark, no start
timestamp. -/
def NoUtterance (s : SessionState) : Prop :=
  s.lastAssistantItem = .null ∧ s.markQueue = [] ∧ s.responseStartTimestampTwilio = .null

/-- A call that can be made while no utterance is tracked: on the telephony
socket only a `media` send given the event object, on the speech-model socket
anything but a truncate. -/
def Effect.outsideUtterance : Effect → Bool
  | .connectionSend (.object (.media _ _)) => true
  | .connectionSend _ => false
  | .openAiWsSend (.json (.truncate _ _ _)) => false
  | _ => true

/-! ## Handling of single events -/

/-- C1, as stated, fails: handled in the middle of an utterance, a `start`
event does not leave `lastAssistantItem` unset and `markQueue` empty; both keep
their prior content. -/
theorem start_mid_utterance_keeps_item_and_marks :
    (connectionOnMessage .OPEN midUtterance (startMessage "B")).1.lastAssistantItem
        = .val "I1" ∧
      (connectionOnMessage .OPEN midUtterance (startMessage "B")).1.markQueue
        = ["responsePart"] ∧
      ¬ ((connectionOnMessage .OPEN midUtterance (startMessage "B")).1.lastAssistantItem
            = .null ∧
          (connectionOnMessage .OPEN midUtterance (startMessage "B")).1.markQueue = []) := by
  decide

/-- C1, amended: for every prior state, a `start` event with stream id `S`
leaves `streamSid = S`, `latestMediaTimestamp = 0` and
`responseStartTimestampTwilio` unset (`null`), leaves `lastAssistantItem` and
`markQueue` as they were, and sends nothing. -/
theorem start_resets_stream_and_timestamps (rs : ReadyState) (s : SessionState) (S : String) :
    connectionOnMessage rs s (startMessage S) =
      ({ streamSid := .val S
         latestMediaTimestamp := .val 0
         lastAssistantItem := s.lastAssistantItem
         markQueue := s.markQueue
         responseStartTimestampTwilio := .null }, []) := by
  rfl

/-- C2: in a state with a non-empty `markQueue`,
`responseStartTimestampTwilio = T0`, `latestMediaTimestamp = T1` and
`lastAssistantItem` a (non-empty) item id `X`, a `speech_started` message makes
exactly two calls, one `conversation.item.truncate` of `X` at content index 0
and audio end `T1 - T0` on the speech-model socket and then one `clear` with the
current `streamSid` on the telephony socket, and leaves `lastAssistantItem` and
`responseStartTimestampTwilio` unset and `markQueue` empty, with `streamSid` and
`latestMediaTimestamp` as before.  (The order of `T0` and `T1` plays no part.) -/
theorem speech_started_truncates_and_clears (s : SessionState) (T0 T1 : Int) (X : String)
    (hq : s.markQueue ≠ [])
    (h0 : s.responseStartTimestampTwilio = .val T0)
    (h1 : s.latestMediaTimestamp = .val T1)
    (hX : s.lastAssistantItem = .val X) (hne : X ≠ "") :
    openAiWsOnMessage s speechStartedMessage =
      ({ streamSid := s.streamSid
         latestMediaTimestamp := .val T1
         lastAssistantItem := .null
         markQueue := []
         responseStartTimestampTwilio := .null },
       [Effect.openAiWsSend (.json (.truncate (.val X) 0 (.num (T1 - T0)))),
        Effect.connectionSend (.json (.clear s.streamSid))]) := by
  have hlen : 0 < s.markQueue.length := List.length_pos.mpr hq
  simp [openAiWsOnMessage, speechStartedMessage, handleSpeechStartedEvent, hlen, h0, h1, hX,
    Js.neqNull, truthyStr, hne, jsMinus, toNumber, JsNumber.sub]

/-- C2 at the state `midUtterance`. -/
theorem speech_started_truncates_and_clears_witness :
    openAiWsOnMessage midUtterance speechStartedMessage =
      ({ streamSid := .val "A"
         latestMediaTimestamp := .val 400
         lastAssistantItem := .null
         markQueue := []
         responseStartTimestampTwilio := .null },
       [Effect.openAiWsSend (.json (.truncate (.val "I1") 0 (.num (400 - 0)))),
        Effect.connectionSend (.json (.clear (.val "A")))]) :=
  speech_started_truncates_and_clears midUtterance 0 400 "I1" (by decide) rfl rfl rfl (by decide)

/-- C3: when `markQueue` is empty or `responseStartTimestampTwilio` is unset
(`null` or `undefined`), a `speech_started` message makes no call at all (no
truncate, no clear) and leaves every variable as it was. -/
theorem speech_started_outside_utterance_is_noop (s : SessionState)
    (h : s.markQueue = [] ∨ s.responseStartTimestampTwilio = .null ∨
      s.responseStartTimestampTwilio = .undefined) :
    openAiWsOnMessage s speechStartedMessage = (s, []) := by
  rcases h with h | h | h <;>
    simp [openAiWsOnMessage, speechStartedMessage, handleSpeechStartedEvent, h, Js.neqNull]

/-- C3 at the initial state. -/
theorem speech_started_outside_utterance_is_noop_witness :
    openAiWsOnMessage initialState speechStartedMessage = (initialState, []) :=
  speech_started_outside_utterance_is_noop initialState (Or.inl rfl)

/-- C7: a telephony `mark` message makes no call and leaves every variable but
`markQueue` as it was; `markQueue` loses its first (oldest) entry, the remaining
entries staying in order, so that its length drops by exactly one when it was
non-empty, and it stays empty when it was empty. -/
theorem mark_pops_oldest (rs : ReadyState) (s : SessionState) :
    (connectionOnMessage rs s markMessage).2 = [] ∧
      (connectionOnMessage rs s markMessage).1.markQueue =
        (match s.markQueue with
          | [] => []
          | _ :: rest => rest) ∧
      (connectionOnMessage rs s markMessage).1.markQueue.length = s.markQueue.length - 1 ∧
      (connectionOnMessage rs s markMessage).1.streamSid = s.streamSid ∧
      (connectionOnMessage rs s markMessage).1.latestMediaTimestamp = s.latestMediaTimestamp ∧
      (connectionOnMessage rs s markMessage).1.lastAssistantItem = s.lastAssistantItem ∧
      (connectionOnMessage rs s markMessage).1.responseStartTimestampTwilio =
        s.responseStartTimestampTwilio := by
  cases hq : s.markQueue with
  | nil => simp [connectionOnMessage, markMessage, hq]
  | cons x rest => simp [connectionOnMessage, markMessage, hq]

/-! ## The two listeners, case by case -/

/-- The body of the first `if` of the speech-model listener stops at its first
statement: the variables are as before and the only call is the `media` send
given the event object. -/
theorem onAudioDelta_throws (s : SessionState) (r : OpenAiResponse) :
    onAudioDelta s r =
      (s, [Effect.connectionSend (.object (.media s.streamSid r.delta))]) := by
  rfl

/-- The speech-model listener on a parsed message: the aborted `media` send if
the message is an audio delta with a truthy payload, then
`handleSpeechStartedEvent` if it is a `speech_started` message. -/
theorem openAiWsOnMessage_data (s : SessionState) (r : OpenAiResponse) :
    openAiWsOnMessage s (.data r) =
      ((if r.type = .val "input_audio_buffer.speech_started" then handleSpeechStartedEvent s
          else (s, [])).1,
        (if r.type = .val "response.audio.delta" && truthyStr r.delta then
            [Effect.connectionSend (.object (.media s.streamSid r.delta))]
          else []) ++
          (if r.type = .val "input_audio_buffer.speech_started" then handleSpeechStartedEvent s
            else (s, [])).2) := by
  by_cases c1 : (decide (r.type = .val "response.audio.delta") && truthyStr r.delta) = true <;>
    by_cases c2 : r.type = .val "input_audio_buffer.speech_started" <;>
    simp [openAiWsOnMessage, onAudioDelta_throws, c1, c2]

/-- The speech-model listener on an audio delta with an empty payload does
nothing. -/
theorem openAiWsOnMessage_audioDelta_empty (s : SessionState) (i : String) :
    openAiWsOnMessage s (audioDeltaMessage i "") = (s, []) := by
  have hty : ¬ ("response.audio.delta" = "input_audio_buffer.speech_started") := by decide
  simp [openAiWsOnMessage, audioDeltaMessage, truthyStr, hty]

/-- The speech-model listener on an audio delta with a non-empty payload runs
the body of its first `if` and nothing else. -/
theorem openAiWsOnMessage_audioDelta (s : SessionState) (i p : String) (hp : p ≠ "") :
    openAiWsOnMessage s (audioDeltaMessage i p) =
      onAudioDelta s { type := .val "response.audio.delta", delta := .val p, item_id := .val i } := by
  have hty : ¬ ("response.audio.delta" = "input_audio_buffer.speech_started") := by decide
  simp [openAiWsOnMessage, audioDeltaMessage, truthyStr, hty, hp]

/-- The speech-model listener on a `speech_started` message runs
`handleSpeechStartedEvent`. -/
theorem openAiWsOnMessage_speechStarted (s : SessionState) :
    openAiWsOnMessage s speechStartedMessage = handleSpeechStartedEvent s := by
  have hty : ¬ ("input_audio_buffer.speech_started" = "response.audio.delta") := by decide
  simp [openAiWsOnMessage, speechStartedMessage, hty]

/-- The variables after `handleSpeechStartedEvent`: all as before, or the
three utterance variables reset. -/
theorem handleSpeechStartedEvent_session (s : SessionState) :
    (handleSpeechStartedEvent s).1 = s ∨
      (handleSpeechStartedEvent s).1 =
        { s with markQueue := [], lastAssistantItem := .null,
                 responseStartTimestampTwilio := .null } := by
  by_cases h : (decide (s.markQueue.length > 0) && s.responseStartTimestampTwilio.neqNull) = true
  · right
    simp only [handleSpeechStartedEvent, h, if_true]
  · left
    simp only [handleSpeechStartedEvent, h]
    rfl

/-- Outside an utterance `handleSpeechStartedEvent` does nothing. -/
theorem handleSpeechStartedEvent_of_guard_false (s : SessionState)
    (h : interruptionGuard s = false) : handleSpeechStartedEvent s = (s, []) := by
  unfold interruptionGuard at h
  unfold handleSpeechStartedEvent
  rw [if_neg (by rw [h]; decide)]

/-- During an utterance `handleSpeechStartedEvent` resets the three utterance
variables, and sends the truncate (if an item id is held) and the clear. -/
theorem handleSpeechStartedEvent_of_guard_true (s : SessionState)
    (h : interruptionGuard s = true) :
    handleSpeechStartedEvent s =
      ({ s with markQueue := [], lastAssistantItem := .null,
                responseStartTimestampTwilio := .null },
        (if truthyStr s.lastAssistantItem then
          [Effect.openAiWsSend (.json (.truncate s.lastAssistantItem 0
            (jsMinus s.latestMediaTimestamp s.responseStartTimestampTwilio)))]
        else []) ++ [Effect.connectionSend (.json (.clear s.streamSid))]) := by
  unfold interruptionGuard at h
  unfold handleSpeechStartedEvent
  rw [if_pos h]

/-- The telephony listener calls nothing but `openAiWs.send`. -/
theorem connectionOnMessage_calls (rs : ReadyState) (s : SessionState) (m : TwilioMessage)
    (x : Effect) (hx : x ∈ (connectionOnMessage rs s m).2) :
    ∃ audio : Js String, x = Effect.openAiWsSend (.json (.inputAudioBufferAppend audio)) := by
  cases m with
  | unparsable => simp [connectionOnMessage] at hx
  | data d =>
    by_cases h1 : d.event = .val "media"
    · cases hm : d.media with
      | none => simp [connectionOnMessage, h1, hm] at hx
      | some f =>
        by_cases hrs : rs = .OPEN
        · simp [connectionOnMessage, h1, hm, hrs] at hx
          exact ⟨f.payload, hx⟩
        · simp [connectionOnMessage, h1, hm, hrs] at hx
    · by_cases h2 : d.event = .val "start"
      · cases hs : d.start <;> simp [connectionOnMessage, h1, h2, hs] at hx
      · by_cases h3 : d.event = .val "mark"
        · simp [connectionOnMessage, h1, h2, h3] at hx
        · simp [connectionOnMessage, h1, h2, h3] at hx

/-- The telephony listener never assigns `lastAssistantItem`. -/
theorem connectionOnMessage_lastAssistantItem (rs : ReadyState) (s : SessionState)
    (m : TwilioMessage) :
    (connectionOnMessage rs s m).1.lastAssistantItem = s.lastAssistantItem := by
  cases m with
  | unparsable => rfl
  | data d =>
    by_cases h1 : d.event = .val "media"
    · cases hm : d.media <;> simp [connectionOnMessage, h1, hm]
    · by_cases h2 : d.event = .val "start"
      · cases hs : d.start <;> simp [connectionOnMessage, h1, h2, hs]
      · by_cases h3 : d.event = .val "mark"
        · by_cases hq : 0 < s.markQueue.length <;> simp [connectionOnMessage, h1, h2, h3, hq]
        · simp [connectionOnMessage, h1, h2, h3]

/-- The speech-model listener throws no exception out of its `try`. -/
theorem openAiWsOnMessage_no_exception (s : SessionState) (m : OpenAiMessage) :
    Effect.uncaughtException ∉ (openAiWsOnMessage s m).2 := by
  cases m with
  | unparsable => simp [openAiWsOnMessage]
  | data r =>
    rw [openAiWsOnMessage_data]
    intro h
    rcases List.mem_append.mp h with h | h
    · by_cases c1 :
          (decide (r.type = .val "response.audio.delta") && truthyStr r.delta) = true <;>
        simp [c1] at h
    · by_cases c2 : r.type = .val "input_audio_buffer.speech_started"
      · rw [if_pos c2] at h
        cases hg : interruptionGuard s with
        | false =>
          rw [handleSpeechStartedEvent_of_guard_false s hg] at h
          simp at h
        | true =>
          rw [handleSpeechStartedEvent_of_guard_true s hg] at h
          by_cases hi : truthyStr s.lastAssistantItem = true <;> simp [hi] at h
      · rw [if_neg c2] at h
        simp at h

/-- An adapter event throws no uncaught exception. -/
theorem step_toInbound_no_exception (b : Bridge) (e : SpecEvent) :
    Effect.uncaughtException ∉ (step b e.toInbound).2 := by
  have hc : ∀ m : TwilioMessage,
      Effect.uncaughtException ∉ (connectionOnMessage b.readyState b.session m).2 := by
    intro m h
    obtain ⟨audio, ha⟩ := connectionOnMessage_calls _ _ m _ h
    cases ha
  cases e with
  | start sid => exact hc _
  | media t p => exact hc _
  | mark => exact hc _
  | telephonyOther ev => exact hc _
  | audioDelta i p => exact openAiWsOnMessage_no_exception _ _
  | speechStarted => exact openAiWsOnMessage_no_exception _ _
  | speechOther ty => exact openAiWsOnMessage_no_exception _ _

/-- Running a sequence of adapter events, one event at a time. -/
theorem runEvents_cons (b : Bridge) (e : SpecEvent) (es : List SpecEvent) :
    runEvents b (e :: es) =
      ((runEvents (step b e.toInbound).1 es).1,
        (step b e.toInbound).2 ++ (runEvents (step b e.toInbound).1 es).2) := by
  show run b (e.toInbound :: es.map SpecEvent.toInbound) = _
  simp only [run]
  rw [if_neg (step_toInbound_no_exception b e)]
  rfl

/-! ## Media timestamps, serialization and ignored messages -/

/-- C11: from any state, with the speech-model socket in any state, after a
non-empty sequence of telephony `media` events (any frames, then a last frame
with timestamp `t`) `latestMediaTimestamp` is `t`. -/
theorem latest_is_last_media_timestamp (b : Bridge) (frames : List (Int × String))
    (t : Int) (p : String) :
    (runEvents b (mediaRun (frames ++ [(t, p)]))).1.session.latestMediaTimestamp = .val t := by
  induction frames generalizing b with
  | nil =>
    show (runEvents b [SpecEvent.media t p]).1.session.latestMediaTimestamp = .val t
    rw [runEvents_cons]
    rfl
  | cons f fs ih =>
    show (runEvents b (SpecEvent.media f.1 f.2 :: mediaRun (fs ++ [(t, p)]))).1.session.latestMediaTimestamp
      = .val t
    rw [runEvents_cons]
    exact ih _

/-- C12, as stated, fails: the `media` events with timestamps 500 and then 100
leave `latestMediaTimestamp` at 500 and then at 100, which is less. -/
theorem latest_decreases_on_unordered_media :
    (runEvents initialBridge (mediaRun [(500, "a")])).1.session.latestMediaTimestamp
        = .val 500 ∧
      (runEvents initialBridge
          (mediaRun [(500, "a"), (100, "b")])).1.session.latestMediaTimestamp = .val 100 ∧
      ¬ ((500 : Int) ≤ 100) := by
  decide

/-- C12, amended: when the timestamps of a sequence of telephony `media` events
do not decrease in arrival order and the first is at least the number `L` held
by `latestMediaTimestamp`, then before the last event of the sequence
`latestMediaTimestamp` holds a number `A`, after it the timestamp `t` of that
event, and `A ≤ t`.  (This applies to every event of such a sequence, taken as
the last event of the sequence up to it.) -/
theorem latest_nondecreasing_on_ordered_media (b : Bridge) (L : Int)
    (pre : List (Int × String)) (t : Int) (p : String)
    (hL : b.session.latestMediaTimestamp = .val L)
    (hchain : List.Chain (· ≤ ·) L ((pre ++ [(t, p)]).map Prod.fst)) :
    ∃ A : Int,
      (runEvents b (mediaRun pre)).1.session.latestMediaTimestamp = .val A ∧ A ≤ t ∧
      (runEvents b (mediaRun (pre ++ [(t, p)]))).1.session.latestMediaTimestamp = .val t := by
  induction pre generalizing b L with
  | nil =>
    refine ⟨L, hL, ?_, ?_⟩
    · simpa using hchain
    · show (runEvents b [SpecEvent.media t p]).1.session.latestMediaTimestamp = .val t
      rw [runEvents_cons]
      rfl
  | cons f fs ih =>
    have hc : L ≤ f.1 ∧ List.Chain (· ≤ ·) f.1 ((fs ++ [(t, p)]).map Prod.fst) := by
      simpa using hchain
    have hstep : (step b (SpecEvent.media f.1 f.2).toInbound).1.session.latestMediaTimestamp
        = .val f.1 := rfl
    obtain ⟨A, hA, hAt, hlast⟩ := ih (step b (SpecEvent.media f.1 f.2).toInbound).1 f.1 hstep hc.2
    refine ⟨A, ?_, hAt, ?_⟩
    · show (runEvents b (SpecEvent.media f.1 f.2 :: mediaRun fs)).1.session.latestMediaTimestamp
        = .val A
      rw [runEvents_cons]
      exact hA
    · show (runEvents b
          (SpecEvent.media f.1 f.2 :: mediaRun (fs ++ [(t, p)]))).1.session.latestMediaTimestamp
        = .val t
      rw [runEvents_cons]
      exact hlast

/-- C12 (amended) on the frames with timestamps 0, 400 and 400 from the initial
state. -/
theorem latest_nondecreasing_on_ordered_media_witness :
    ∃ A : Int,
      (runEvents initialBridge
          (mediaRun [(0, "a"), (400, "b")])).1.session.latestMediaTimestamp = .val A ∧
        A ≤ 400 ∧
        (runEvents initialBridge
          (mediaRun ([(0, "a"), (400, "b")] ++ [(400, "c")]))).1.session.latestMediaTimestamp
          = .val 400 :=
  latest_nondecreasing_on_ordered_media initialBridge 0 [(0, "a"), (400, "b")] 400 "c" rfl
    (by simp)

/-- C13: when the timer set on `open` runs out, `initializeSession` makes
exactly three calls, all on the speech-model socket and in this order: a
`session.update` with the static configuration, a `conversation.item.create`
for a `message` item of role `user` with one `input_text` part, and a
`response.create`; the variables and the socket state are unchanged and nothing
is sent on the telephony socket. -/
theorem initialize_session_sends_three_messages (b : Bridge) :
    step b .timerFired =
        (b,
         [Effect.openAiWsSend (.json (.sessionUpdate
            { turn_detection := "server_vad"
              input_audio_format := "g711_ulaw"
              output_audio_format := "g711_ulaw"
              voice := "alloy"
              instructions := SYSTEM_MESSAGE
              modalities := ["text", "audio"]
              temperatureTenths := 8 })),
          Effect.openAiWsSend (.json (.conversationItemCreate "message" "user"
            [{ type := "input_text", text := "Hello! How can I assist you today?" }])),
          Effect.openAiWsSend (.json .responseCreate)]) ∧
      (∀ arg : SendArg TwilioEvent, Effect.connectionSend arg ∉ (step b .timerFired).2) ∧
      (step b .openAiWsOpen).2 = [Effect.setTimeoutInitializeSession 100] := by
  refine ⟨rfl, ?_, rfl⟩
  intro arg h
  simp [step, initializeSession, sendInitialConversationItem] at h

/-- C15 fails on the code: after `start{A}`, an audio delta calls
`connection.send` with the `media` event as an object, not as JSON text, so not
every telephony send is given JSON text. -/
theorem media_event_sent_unserialized :
    (runEvents initialBridge [.start "A", .audioDelta "I1" "p1"]).2 =
        [Effect.connectionSend (.object (.media (.val "A") (.val "p1")))] ∧
      ¬ TelephonySendsSerialized
        (runEvents initialBridge [.start "A", .audioDelta "I1" "p1"]).2 := by
  refine ⟨by decide, ?_⟩
  intro h
  have h' := h (.object (.media (.val "A") (.val "p1"))) (by decide)
  exact absurd h' (by decide)

/-- C16: a telephony `media` event handled while the speech-model socket is not
open makes no call, sets `latestMediaTimestamp` to the timestamp of the event
and leaves the other four variables as they were. -/
theorem media_dropped_when_speech_not_open (rs : ReadyState) (s : SessionState)
    (t : Int) (p : String) (hrs : rs ≠ .OPEN) :
    connectionOnMessage rs s (mediaMessage t p) =
      ({ streamSid := s.streamSid
         latestMediaTimestamp := .val t
         lastAssistantItem := s.lastAssistantItem
         markQueue := s.markQueue
         responseStartTimestampTwilio := s.responseStartTimestampTwilio }, []) := by
  simp [connectionOnMessage, mediaMessage, hrs]

/-- C16 at the state `midUtterance` with the speech-model socket connecting. -/
theorem media_dropped_when_speech_not_open_witness :
    connectionOnMessage .CONNECTING midUtterance (mediaMessage 900 "c") =
      ({ streamSid := midUtterance.streamSid
         latestMediaTimestamp := .val 900
         lastAssistantItem := midUtterance.lastAssistantItem
         markQueue := midUtterance.markQueue
         responseStartTimestampTwilio := midUtterance.responseStartTimestampTwilio }, []) :=
  media_dropped_when_speech_not_open .CONNECTING midUtterance 900 "c" (by decide)

/-- C17, as stated, fails: a `media` event whose frame lacks `timestamp` and
`payload`, handled with the speech-model socket open, sets
`latestMediaTimestamp` to `undefined` and sends an `input_audio_buffer.append`;
a `start` event whose frame lacks `streamSid` sets `streamSid` to `undefined`
and resets the two timestamps. -/
theorem event_lacking_fields_is_handled :
    connectionOnMessage .OPEN midUtterance mediaMessageWithoutFields =
        ({ streamSid := .val "A"
           latestMediaTimestamp := .undefined
           lastAssistantItem := .val "I1"
           markQueue := ["responsePart"]
           responseStartTimestampTwilio := .val 0 },
         [Effect.openAiWsSend (.json (.inputAudioBufferAppend .undefined))]) ∧
      connectionOnMessage .OPEN midUtterance startMessageWithoutStreamSid =
        ({ streamSid := .undefined
           latestMediaTimestamp := .val 0
           lastAssistantItem := .val "I1"
           markQueue := ["responsePart"]
           responseStartTimestampTwilio := .null }, []) ∧
      connectionOnMessage .OPEN midUtterance mediaMessageWithoutFields ≠ (midUtterance, []) ∧
      connectionOnMessage .OPEN midUtterance startMessageWithoutStreamSid ≠ (midUtterance, []) := by
  decide

/-- The telephony listener does nothing on a message that cannot be parsed, has
an `event` other than `media`, `start` and `mark`, or is a `media` or `start`
message without its frame. -/
theorem connectionOnMessage_ignored (rs : ReadyState) (s : SessionState) (m : TwilioMessage)
    (h : ignoredTwilioMessage m = true) : connectionOnMessage rs s m = (s, []) := by
  cases m with
  | unparsable => rfl
  | data d =>
    simp only [ignoredTwilioMessage, Bool.or_eq_true, Bool.and_eq_true, decide_eq_true_eq,
      Option.isNone_iff_eq_none] at h
    rcases h with (⟨⟨h1, h2⟩, h3⟩ | ⟨h1, h2⟩) | ⟨h1, h2⟩
    · simp [connectionOnMessage, h1, h2, h3]
    · simp [connectionOnMessage, h1, h2]
    · simp [connectionOnMessage, h1, h2]

/-- The speech-model listener does nothing on a message that cannot be parsed
or whose `type` is neither of the two it knows. -/
theorem openAiWsOnMessage_ignored (s : SessionState) (m : OpenAiMessage)
    (h : ignoredOpenAiMessage m = true) : openAiWsOnMessage s m = (s, []) := by
  cases m with
  | unparsable => rfl
  | data r =>
    simp only [ignoredOpenAiMessage, Bool.and_eq_true, decide_eq_true_eq] at h
    simp [openAiWsOnMessage, h.1, h.2]

/-- C17, amended: a message that cannot be parsed, a telephony message whose
`event` is none of `start`, `media`, `mark`, a `media` message without its
`media` object, a `start` message without its `start` object, and a speech-model
message whose `type` is neither `response.audio.delta` nor
`input_audio_buffer.speech_started`, each leave the bridge as it was (all five
variables, and the socket state) and make no call. -/
theorem ignored_message_is_noop (b : Bridge) (e : Inbound) (h : ignoredInbound e = true) :
    step b e = (b, []) := by
  cases e with
  | connectionMessage m =>
    show ({ b with session := (connectionOnMessage b.readyState b.session m).1 },
      (connectionOnMessage b.readyState b.session m).2) = (b, [])
    rw [connectionOnMessage_ignored _ _ m h]
  | openAiWsMessage m =>
    show ({ b with session := (openAiWsOnMessage b.session m).1 },
      (openAiWsOnMessage b.session m).2) = (b, [])
    rw [openAiWsOnMessage_ignored _ m h]
  | connectionClose => simp [ignoredInbound] at h
  | openAiWsOpen => simp [ignoredInbound] at h
  | openAiWsClose => simp [ignoredInbound] at h
  | openAiWsError => simp [ignoredInbound] at h
  | timerFired => simp [ignoredInbound] at h

/-- C17 (amended) on a telephony message with the event `stop`, in the middle
of an utterance. -/
theorem ignored_message_is_noop_witness :
    step { session := midUtterance, readyState := .OPEN }
        (.connectionMessage (otherTwilioMessage "stop")) =
      ({ session := midUtterance, readyState := .OPEN }, []) :=
  ignored_message_is_noop { session := midUtterance, readyState := .OPEN }
    (.connectionMessage (otherTwilioMessage "stop")) (by decide)

/-! ## Interruption -/

/-- C18: for every state, a second `speech_started` message right after a first
leaves the variables as the first left them and makes no call (no truncate, no
clear). -/
theorem speech_started_is_idempotent (s : SessionState) :
    openAiWsOnMessage (openAiWsOnMessage s speechStartedMessage).1 speechStartedMessage =
      ((openAiWsOnMessage s speechStartedMessage).1, []) := by
  simp only [openAiWsOnMessage_speechStarted]
  cases hg : interruptionGuard s with
  | false =>
    rw [handleSpeechStartedEvent_of_guard_false s hg]
    exact handleSpeechStartedEvent_of_guard_false s hg
  | true =>
    rw [handleSpeechStartedEvent_of_guard_true s hg]
    exact handleSpeechStartedEvent_of_guard_false _ rfl

/-! ## The audio-delta branch -/

/-- C4 fails on the code: once the stream `A` has started, an audio delta makes
one call, the `media` send given the event object, which throws; no mark is
sent and `markQueue` keeps its length. -/
theorem audio_delta_sends_no_mark :
    (runEvents initialBridge [.start "A"]).1.session = afterStart ∧
      openAiWsOnMessage afterStart (audioDeltaMessage "I1" "p1") =
        (afterStart, [Effect.connectionSend (.object (.media (.val "A") (.val "p1")))]) ∧
      (SendArg.object (TwilioEvent.media (.val "A") (.val "p1"))).throws = true ∧
      ¬ ((openAiWsOnMessage afterStart (audioDeltaMessage "I1" "p1")).1.markQueue.length =
          afterStart.markQueue.length + 1) := by
  decide

/-- C5 fails on the code: after `start{A}` and `media{400}` the start timestamp
is unset and `latestMediaTimestamp` is `400`; an audio delta leaves the start
timestamp unset. -/
theorem audio_delta_leaves_start_timestamp_unset :
    (runEvents initialBridge
          [.start "A", .media 400 "a"]).1.session.responseStartTimestampTwilio = .null ∧
      (runEvents initialBridge
          [.start "A", .media 400 "a"]).1.session.latestMediaTimestamp = .val 400 ∧
      (runEvents initialBridge
          [.start "A", .media 400 "a",
            .audioDelta "I1" "p1"]).1.session.responseStartTimestampTwilio = .null := by
  decide

/-- C6 fails on the code: in the end-to-end scenario, for any payloads `a` and
`b` of the two inbound `media` events, the audio delta makes only the `media`
send that throws and leaves the three utterance variables unset and empty, and
the later `speech_started` message sends neither truncate nor clear. -/
theorem end_to_end_scenario_stops_at_media_send (a b : String) :
    runEvents { session := initialState, readyState := .OPEN }
        [.start "A", .media 0 a, .audioDelta "I1" "p1"] =
      ({ session :=
           { streamSid := .val "A"
             latestMediaTimestamp := .val 0
             lastAssistantItem := .null
             markQueue := []
             responseStartTimestampTwilio := .null }
         readyState := .OPEN },
       [Effect.openAiWsSend (.json (.inputAudioBufferAppend (.val a))),
        Effect.connectionSend (.object (.media (.val "A") (.val "p1")))]) ∧
    runEvents
        { session :=
            { streamSid := .val "A"
              latestMediaTimestamp := .val 0
              lastAssistantItem := .null
              markQueue := []
              responseStartTimestampTwilio := .null }
          readyState := .OPEN }
        [.media 400 b, .speechStarted] =
      ({ session :=
           { streamSid := .val "A"
             latestMediaTimestamp := .val 400
             lastAssistantItem := .null
             markQueue := []
             responseStartTimestampTwilio := .null }
         readyState := .OPEN },
       [Effect.openAiWsSend (.json (.inputAudioBufferAppend (.val b)))]) := by
  constructor <;> rfl

/-- C14 fails on the code: caller audio is passed on as it is (one
`input_audio_buffer.append` with the payload of the `media` event), but an audio
delta makes a `media` send that throws, so no event reaches the telephony
socket. -/
theorem audio_delta_reaches_no_telephony :
    (connectionOnMessage .OPEN afterStart (mediaMessage 0 "a")).2 =
        [Effect.openAiWsSend (.json (.inputAudioBufferAppend (.val "a")))] ∧
      (openAiWsOnMessage afterStart (audioDeltaMessage "I1" "p1")).2 =
        [Effect.connectionSend (.object (.media (.val "A") (.val "p1")))] ∧
      deliveredToTelephony (openAiWsOnMessage afterStart (audioDeltaMessage "I1" "p1")).2
        = [] := by
  decide

/-! ## Teardown -/

/-- C10 fails on the code: with both sockets open, the close of the
speech-model socket makes the bridge call nothing, and its failure is thrown as
an uncaught exception; in neither case is `connection.close()` called.  The
close of the telephony socket does close the speech-model socket. -/
theorem speech_close_or_failure_issues_no_telephony_close :
    step { session := afterStart, readyState := .OPEN } .openAiWsClose =
        ({ session := afterStart, readyState := .CLOSED }, []) ∧
      step { session := afterStart, readyState := .OPEN } .openAiWsError =
        ({ session := afterStart, readyState := .OPEN }, [Effect.uncaughtException]) ∧
      Effect.connectionClose ∉
        (step { session := afterStart, readyState := .OPEN } .openAiWsClose).2 ∧
      Effect.connectionClose ∉
        (step { session := afterStart, readyState := .OPEN } .openAiWsError).2 ∧
      (step { session := afterStart, readyState := .OPEN } .connectionClose).2 =
        [Effect.openAiWsClose] := by
  decide

/-! ## Invariants over runs -/

/-- The speech-model listener leaves in `lastAssistantItem` either `null` or a
truthy value. -/
theorem itemNullOrTruthy_openAiWsOnMessage (s : SessionState) (m : OpenAiMessage)
    (h : ItemNullOrTruthy s) : ItemNullOrTruthy (openAiWsOnMessage s m).1 := by
  cases m with
  | unparsable => exact h
  | data r =>
    rw [openAiWsOnMessage_data]
    by_cases c2 : r.type = .val "input_audio_buffer.speech_started"
    · rw [if_pos c2]
      rcases handleSpeechStartedEvent_session s with e | e
      · rw [e]; exact h
      · rw [e]; exact Or.inl rfl
    · rw [if_neg c2]
      exact h

/-- One step leaves in `lastAssistantItem` either `null` or a truthy value. -/
theorem itemNullOrTruthy_step (b : Bridge) (e : Inbound) (h : ItemNullOrTruthy b.session) :
    ItemNullOrTruthy (step b e).1.session := by
  cases e with
  | connectionMessage m =>
    show ItemNullOrTruthy (connectionOnMessage b.readyState b.session m).1
    unfold ItemNullOrTruthy
    rw [connectionOnMessage_lastAssistantItem]
    exact h
  | openAiWsMessage m => exact itemNullOrTruthy_openAiWsOnMessage _ m h
  | connectionClose => exact h
  | openAiWsOpen => exact h
  | openAiWsClose => exact h
  | openAiWsError => exact h
  | timerFired => exact h

/-- Along every run, over any messages, `lastAssistantItem` holds `null` or a
truthy value. -/
theorem itemNullOrTruthy_run (es : List Inbound) :
    ∀ b : Bridge, ItemNullOrTruthy b.session → ItemNullOrTruthy (run b es).1.session := by
  induction es with
  | nil => intro b h; exact h
  | cons e es ih =>
    intro b h
    simp only [run]
    by_cases hx : Effect.uncaughtException ∈ (step b e).2
    · rw [if_pos hx]
      exact itemNullOrTruthy_step b e h
    · rw [if_neg hx]
      exact ih _ (itemNullOrTruthy_step b e h)

/-- While no utterance is tracked the speech-model listener changes no
variable, and calls nothing but the aborted `media` send. -/
theorem openAiWsOnMessage_noUtterance (s : SessionState) (m : OpenAiMessage)
    (h : NoUtterance s) :
    (openAiWsOnMessage s m).1 = s ∧
      ∀ x ∈ (openAiWsOnMessage s m).2, x.outsideUtterance = true := by
  have hg : interruptionGuard s = false := by
    simp [interruptionGuard, h.2.1]
  cases m with
  | unparsable =>
    refine ⟨rfl, ?_⟩
    intro x hx
    simp [openAiWsOnMessage] at hx
  | data r =>
    rw [openAiWsOnMessage_data, handleSpeechStartedEvent_of_guard_false s hg]
    refine ⟨by split_ifs <;> rfl, ?_⟩
    intro x hx
    by_cases c1 : (decide (r.type = .val "response.audio.delta") && truthyStr r.delta) = true <;>
      by_cases c2 : r.type = .val "input_audio_buffer.speech_started" <;>
      simp [c1, c2] at hx
    all_goals
      subst hx
      rfl

/-- While no utterance is tracked the telephony listener starts none, and calls
nothing but the forwarding of caller audio. -/
theorem connectionOnMessage_noUtterance (rs : ReadyState) (s : SessionState)
    (m : TwilioMessage) (h : NoUtterance s) :
    NoUtterance (connectionOnMessage rs s m).1 ∧
      ∀ x ∈ (connectionOnMessage rs s m).2, x.outsideUtterance = true := by
  constructor
  · obtain ⟨hi, hq, hr⟩ := h
    cases m with
    | unparsable => exact ⟨hi, hq, hr⟩
    | data d =>
      by_cases h1 : d.event = .val "media"
      · cases hm : d.media <;> simp [connectionOnMessage, h1, hm, NoUtterance, hi, hq, hr]
      · by_cases h2 : d.event = .val "start"
        · cases hs : d.start <;> simp [connectionOnMessage, h1, h2, hs, NoUtterance, hi, hq, hr]
        · by_cases h3 : d.event = .val "mark"
          · simp [connectionOnMessage, h1, h2, h3, NoUtterance, hi, hq, hr]
          · simp [connectionOnMessage, h1, h2, h3, NoUtterance, hi, hq, hr]
  · intro x hx
    obtain ⟨audio, ha⟩ := connectionOnMessage_calls rs s m x hx
    rw [ha]
    rfl

/-- One step of the bridge, of any kind, while no utterance is tracked: none is
tracked afterwards, and the calls are calls made outside an utterance. -/
theorem step_noUtterance (b : Bridge) (e : Inbound) (h : NoUtterance b.session) :
    NoUtterance (step b e).1.session ∧ ∀ x ∈ (step b e).2, x.outsideUtterance = true := by
  cases e with
  | connectionMessage m => exact connectionOnMessage_noUtterance b.readyState b.session m h
  | openAiWsMessage m =>
    obtain ⟨hs, hc⟩ := openAiWsOnMessage_noUtterance b.session m h
    refine ⟨?_, hc⟩
    show NoUtterance (openAiWsOnMessage b.session m).1
    rw [hs]
    exact h
  | connectionClose =>
    refine ⟨h, ?_⟩
    intro x hx
    have hx' : x ∈ (if b.readyState = .OPEN then [Effect.openAiWsClose] else []) := hx
    by_cases hrs : b.readyState = .OPEN <;> simp [hrs] at hx'
    subst hx'
    rfl
  | openAiWsOpen =>
    refine ⟨h, ?_⟩
    intro x hx
    have hx' : x ∈ [Effect.setTimeoutInitializeSession 100] := hx
    simp at hx'
    subst hx'
    rfl
  | openAiWsClose =>
    refine ⟨h, ?_⟩
    intro x hx
    have hx' : x ∈ ([] : List Effect) := hx
    simp at hx'
  | openAiWsError =>
    refine ⟨h, ?_⟩
    intro x hx
    have hx' : x ∈ [Effect.uncaughtException] := hx
    simp at hx'
    subst hx'
    rfl
  | timerFired =>
    refine ⟨h, ?_⟩
    intro x hx
    have hx' : x ∈ initializeSession := hx
    simp [initializeSession, sendInitialConversationItem] at hx'
    rcases hx' with hx' | hx' | hx' <;> subst hx' <;> rfl

/-- From a state where no utterance is tracked, no run ever tracks one, and all
its calls are calls made outside an utterance. -/
theorem run_noUtterance (es : List Inbound) :
    ∀ b : Bridge, NoUtterance b.session →
      NoUtterance (run b es).1.session ∧ ∀ x ∈ (run b es).2, x.outsideUtterance = true := by
  induction es with
  | nil =>
    intro b h
    refine ⟨h, ?_⟩
    intro x hx
    simp [run] at hx
  | cons e es ih =>
    intro b h
    obtain ⟨h1, h2⟩ := step_noUtterance b e h
    simp only [run]
    by_cases hx : Effect.uncaughtException ∈ (step b e).2
    · rw [if_pos hx]
      exact ⟨h1, h2⟩
    · rw [if_neg hx]
      obtain ⟨h3, h4⟩ := ih _ h1
      refine ⟨h3, ?_⟩
      intro x hm
      rcases List.mem_append.mp hm with hm | hm
      · exact h2 x hm
      · exact h4 x hm

/-- The initial variables track no utterance. -/
theorem noUtterance_initial : NoUtterance initialState :=
  ⟨rfl, rfl, rfl⟩

/-- Calls made outside an utterance include no truncate. -/
theorem no_truncate_of_outsideUtterance (effects : List Effect)
    (h : ∀ x ∈ effects, x.outsideUtterance = true)
    (item : Js String) (index : Nat) (audioEnd : JsNumber) :
    Effect.openAiWsSend (.json (.truncate item index audioEnd)) ∉ effects := by
  intro hm
  have := h _ hm
  simp [Effect.outsideUtterance] at this

/-- Calls made outside an utterance include no mark and no clear. -/
theorem marksAndClearsCarryStreamSid_of_outsideUtterance (effects : List Effect)
    (h : ∀ x ∈ effects, x.outsideUtterance = true) :
    MarksAndClearsCarryStreamSid effects := by
  intro arg hm hmedia
  have hx := h _ hm
  cases arg with
  | json e => simp [Effect.outsideUtterance] at hx
  | object e =>
    cases e with
    | media sid p => simp [SendArg.event, TwilioEvent.isMedia] at hmedia
    | mark sid n => simp [Effect.outsideUtterance] at hx
    | clear sid => simp [Effect.outsideUtterance] at hx

/-- Calls made outside an utterance bring nothing to the telephony socket. -/
theorem deliveredToTelephony_of_outsideUtterance (effects : List Effect)
    (h : ∀ x ∈ effects, x.outsideUtterance = true) :
    deliveredToTelephony effects = [] := by
  induction effects with
  | nil => rfl
  | cons x xs ih =>
    have hx := h x (List.mem_cons_self _ _)
    have hxs := ih (fun y hy => h y (List.mem_cons_of_mem _ hy))
    unfold deliveredToTelephony at hxs ⊢
    rw [List.filterMap_cons]
    cases x with
    | connectionSend arg =>
      cases arg with
      | json e => simp [Effect.outsideUtterance] at hx
      | object e => simpa [SendArg.throws] using hxs
    | openAiWsSend arg => simpa using hxs
    | openAiWsClose => simpa using hxs
    | connectionClose => simpa using hxs
    | setTimeoutInitializeSession ms => simpa using hxs
    | uncaughtException => simpa using hxs

/-- While no utterance is tracked, no event raises the forwarded-audio flag. -/
theorem forwardedAfter_noUtterance (b : Bridge) (e : Inbound) (h : NoUtterance b.session) :
    forwardedAfter b false e = false := by
  have hd : forwardsAudio (step b e).2 = false := by
    unfold forwardsAudio
    rw [deliveredToTelephony_of_outsideUtterance _ (step_noUtterance b e h).2]
    rfl
  simp [forwardedAfter, hd]

/-- From a state where no utterance is tracked, the forwarded-audio flag stays
down along every run. -/
theorem audioForwardedSinceReset_noUtterance (es : List Inbound) :
    ∀ b : Bridge, NoUtterance b.session → audioForwardedSinceReset b false es = false := by
  induction es with
  | nil => intro b _; rfl
  | cons e es ih =>
    intro b h
    simp only [audioForwardedSinceReset]
    rw [forwardedAfter_noUtterance b e h]
    by_cases hx : Effect.uncaughtException ∈ (step b e).2
    · rw [if_pos hx]
    · rw [if_neg hx]
      exact ih _ (step_noUtterance b e h).1

/-- C8: in every state reached from the initial variables by any sequence of
events of the two sockets, `lastAssistantItem` is set only if
`responseStartTimestampTwilio` is set.  On this code `lastAssistantItem` is
never set at all: the assignment at line 178 comes after the `connection.send`
call of line 176, which throws. -/
theorem item_set_implies_start_timestamp_set (rs : ReadyState) (es : List Inbound) :
    ((run { session := initialState, readyState := rs } es).1.session.lastAssistantItem.neqNull
          = true →
        (run { session := initialState, readyState := rs }
          es).1.session.responseStartTimestampTwilio.neqNull = true) ∧
      (run { session := initialState, readyState := rs } es).1.session.lastAssistantItem
        = .null := by
  have h := (run_noUtterance es { session := initialState, readyState := rs }
    noUtterance_initial).1
  refine ⟨?_, h.1⟩
  intro hset
  rw [h.1] at hset
  exact absurd hset (by decide)

/-- C9: in every state reached from the initial variables by any sequence of
events of the two sockets (whatever the media timestamps),
`responseStartTimestampTwilio`, when set to a number `R`, is at most the number
held by `latestMediaTimestamp`, and every `conversation.item.truncate` message
sent along the run carries a number that is not negative.  On this code the
start timestamp is never set and no truncate is ever sent: the assignment at
line 177 comes after the `connection.send` call of line 176, which throws. -/
theorem start_timestamp_at_most_latest (rs : ReadyState) (es : List Inbound) :
    (∀ R : Int,
        (run { session := initialState, readyState := rs }
          es).1.session.responseStartTimestampTwilio = .val R →
        ∃ L : Int,
          (run { session := initialState, readyState := rs }
            es).1.session.latestMediaTimestamp = .val L ∧ R ≤ L) ∧
      TruncatesNonNegative (run { session := initialState, readyState := rs } es).2 ∧
      (run { session := initialState, readyState := rs }
        es).1.session.responseStartTimestampTwilio = .null ∧
      ∀ (item : Js String) (index : Nat) (audioEnd : JsNumber),
        Effect.openAiWsSend (.json (.truncate item index audioEnd)) ∉
          (run { session := initialState, readyState := rs } es).2 := by
  obtain ⟨h, hc⟩ := run_noUtterance es { session := initialState, readyState := rs }
    noUtterance_initial
  refine ⟨?_, ?_, h.2.2, no_truncate_of_outsideUtterance _ hc⟩
  · intro R hR
    rw [h.2.2] at hR
    cases hR
  · intro item index audioEnd hm
    exact absurd hm (no_truncate_of_outsideUtterance _ hc item index audioEnd)

/-- C19: in every state reached from the initial variables by any sequence of
events of the two sockets, `responseStartTimestampTwilio` is set exactly when
assistant audio has been forwarded to telephony since the most recent `start`
event or interruption.  On this code neither ever happens: the `media` send of
line 176 throws, so no audio reaches telephony and line 177 is not reached. -/
theorem start_timestamp_set_iff_audio_forwarded (rs : ReadyState) (es : List Inbound) :
    (run { session := initialState, readyState := rs }
          es).1.session.responseStartTimestampTwilio.neqNull =
        audioForwardedSinceReset { session := initialState, readyState := rs } false es ∧
      audioForwardedSinceReset { session := initialState, readyState := rs } false es
        = false := by
  have h := (run_noUtterance es { session := initialState, readyState := rs }
    noUtterance_initial).1
  have hf := audioForwardedSinceReset_noUtterance es
    { session := initialState, readyState := rs } noUtterance_initial
  refine ⟨?_, hf⟩
  rw [hf, h.2.2]
  rfl

/-- C20: in every state reached from the initial variables by any sequence of
events of the two sockets (whatever the stream ids of the `start` events), a
non-empty `markQueue` implies that `streamSid` is set, and every `mark` and
every `clear` event sent to telephony along the run carries a `streamSid` that
is set.  On this code `markQueue` stays empty and no mark or clear is ever sent:
`sendMark` is called at line 179, after the `connection.send` call of line 176,
which throws. -/
theorem marks_and_clears_carry_stream_id (rs : ReadyState) (es : List Inbound) :
    ((run { session := initialState, readyState := rs } es).1.session.markQueue ≠ [] →
        (run { session := initialState, readyState := rs }
          es).1.session.streamSid.neqNull = true) ∧
      MarksAndClearsCarryStreamSid (run { session := initialState, readyState := rs } es).2 ∧
      (run { session := initialState, readyState := rs } es).1.session.markQueue = [] := by
  obtain ⟨h, hc⟩ := run_noUtterance es { session := initialState, readyState := rs }
    noUtterance_initial
  exact ⟨fun hq => absurd h.2.1 hq, marksAndClearsCarryStreamSid_of_outsideUtterance _ hc,
    h.2.1⟩

end TwilioBridge
